import Mathlib

/-!
# GridNinja — verification of the constraint-gating decision engine

Shallow embedding, in Lean 4, of the core decision path of the GridNinja
backend:

* `backend/app/services/physics_engine.py` — coolant properties, the
  `ThermalTwin` (`predict` / `step`) and its heuristic headroom;
* `backend/app/services/policy_engine.py` — `arrhenius_aging_step`,
  `build_ramp_plan` with its candidate simulation, 20-iteration binary
  search, blocked-reason classification and decision-trace emission;
* `backend/app/services/digital_twin.py` — `DigitalTwinService.decide`
  (state commit of step 0) and `DigitalTwinService.get_timeseries`.

Modelling conventions:

* Python floats are modelled as exact rationals (`ℚ`); float literals such
  as `0.5`, `1e-6`, `1e-9` become the corresponding rationals.
* `math.exp` (used only by the Arrhenius aging factor) and `math.sin`
  (used only by the carbon-intensity fallback of the telemetry generator)
  are transcendental; the embedding is parametric in oracles
  `expf sinf : ℚ → ℚ`, so every theorem below holds for *every* such
  oracle unless it instantiates one.
* `random.Random(seed)` is modelled as an abstract draw stream
  `rngU : ℤ → ℕ → ℚ` (seed ↦ index of the `uniform` call ↦ value drawn);
  determinism of the seeded generator is exactly what this models.
* Wall-clock timestamps are modelled as epoch seconds (`ℤ`).  Trace-event
  fields that carry no decision logic (`ts`, `decision_id`, `phase`,
  `message`) are omitted from the embedded `DecisionTraceEvent`; all
  evidence fields that the code computes are kept.
* The trace sink is modelled as always present (the list of events the
  call appends); `trace_sink=None` merely discards it in the source.
* Mutation (`twin.step`, commit of step 0 in `decide`) is modelled by
  explicit state passing: functions return the successor state.
-/

namespace GridNinja

/-! ## Data model (`backend/app/models/domain.py`) -/

inductive ComponentType where
  | GRID | THERMAL | RAMP | POLICY | GNN
deriving DecidableEq

inductive RuleStatus where
  | INFO | ALLOWED | BLOCKED
deriving DecidableEq

inductive SeverityLevel where
  | LOW | MEDIUM | HIGH
deriving DecidableEq

/-- `ThermalTwinConfig` with the source's default field values. -/
structure ThermalTwinConfig where
  C_mass : ℚ := 150
  K_transfer : ℚ := 5/2
  T_max : ℚ := 50
  T_ambient : ℚ := 20
  T_min : ℚ := 18
  Cooling_Ramp_Max : ℚ := 150
  Cooling_COP : ℚ := 4
  T_setpoint : ℚ := 30
  T_deadband : ℚ := 1/2
  Cooling_Min_KW : ℚ := 50
  Cooling_Max_KW : ℚ := 2000
  Kp_temp_kw_per_c : ℚ := 80
  max_export_kw : ℚ := 5000
  max_import_kw : ℚ := 5000
  glycol_pct : ℚ := 3/10
  coolant_volume_m3 : ℚ := 3/50
  use_dynamic_coolant_mass : Bool := true

structure ThermalTwinState where
  T_c : ℚ
  P_cool_kw : ℚ

structure BatteryDegradationConfig where
  Ea : ℚ := 24500
  R_gas : ℚ := 8314/1000
  k_aging : ℚ := 1/10^7
  max_cap_loss_frac_per_decision : ℚ := 5/10^6
  max_temp_for_aging_c : ℚ := 55

structure RampPlanStep where
  t_offset_s : ℕ
  proposed_deltaP_kw : ℚ
  rack_temp_c : ℚ
  cooling_kw : ℚ
  thermal_ok : Bool
  thermal_headroom_kw : ℚ
  reason : String

/-- `DecisionTraceEvent` evidence fields (see the header for omissions). -/
structure DecisionTraceEvent where
  component : ComponentType
  rule_id : String
  status : RuleStatus
  severity : SeverityLevel
  value : Option ℚ := none
  threshold : Option ℚ := none
  units : Option String := none
  proposed_deltaP_kw : Option ℚ := none
  approved_deltaP_kw : Option ℚ := none
  rack_temp_c : Option ℚ := none

structure RampPlan where
  requested_deltaP_kw : ℚ
  approved_deltaP_kw : ℚ
  blocked : Bool
  reason : String
  primary_constraint : Option ComponentType := none
  constraint_value : Option ℚ := none
  constraint_threshold : Option ℚ := none
  steps : List RampPlanStep := []

/-! ## Physics engine (`backend/app/services/physics_engine.py`) -/

set_option linter.unusedVariables false in
/-- `get_coolant_props`: `(rho, cp)` for the water/glycol mix.
The `glycol_pct` parameter is accepted but, as in the source body, unused. -/
def get_coolant_props (T_k : ℚ) (glycol_pct : ℚ) : ℚ × ℚ :=
  let T_c := T_k - 27315/100
  let rho := 1050 - (1/2 * T_c)
  let cp := 3800 + (3/2 * T_c)
  let rho := max 900 (min 1100 rho)
  let cp := max 2500 (min 4500 cp)
  (rho, cp)

/-- `ThermalTwin._dynamic_C_mass_kj_per_c`: effective thermal mass, kJ/°C. -/
def dynamic_C_mass_kj_per_c (cfg : ThermalTwinConfig) (st : ThermalTwinState) : ℚ :=
  if cfg.use_dynamic_coolant_mass = false then cfg.C_mass
  else
    let T_k := st.T_c + 27315/100
    let rc := get_coolant_props T_k cfg.glycol_pct
    let C_kj_per_c := rc.1 * cfg.coolant_volume_m3 * rc.2 / 1000
    max (1/1000) C_kj_per_c

/-- `ThermalTwin._calculate_headroom_kw`: heuristic extra-load headroom. -/
def calculate_headroom_kw (cfg : ThermalTwinConfig)
    (next_temp_c next_cooling_kw : ℚ) : ℚ :=
  let buffer_c := cfg.T_max - next_temp_c
  if buffer_c ≤ 0 then 0
  else max 0 (cfg.K_transfer * buffer_c + next_cooling_kw * cfg.Cooling_COP * (1/10))

/-- The record returned by `ThermalTwin.predict`. -/
structure Prediction where
  rack_temp_c_next : ℚ
  cooling_kw_next : ℚ
  thermal_ok_next : Bool
  thermal_headroom_kw : ℚ
  q_passive_kw : ℚ
  q_active_kw : ℚ
  cooling_target_kw : ℚ
  cooling_cop : ℚ

/-- `ThermalTwin.predict`: one Euler step of the thermal ODE with
deadband cooling control, COP conversion, actuator clamp + ramp limit,
and post-integration temperature floor. -/
def predict (cfg : ThermalTwinConfig) (st : ThermalTwinState)
    (P_it_kw dt_s : ℚ) : Prediction :=
  let q_passive := cfg.K_transfer * (st.T_c - cfg.T_ambient)
  let heat_to_remove_kw := max 0 (P_it_kw - q_passive)
  let temp_err := st.T_c - cfg.T_setpoint
  let target_heat_removed_kw :=
    if temp_err ≤ -cfg.T_deadband then heat_to_remove_kw * (1/10)
    else if |temp_err| ≤ cfg.T_deadband then heat_to_remove_kw * (3/10)
    else heat_to_remove_kw + cfg.Kp_temp_kw_per_c * temp_err
  let cop := max (1/10^6) cfg.Cooling_COP
  let target_cooling_kw :=
    max cfg.Cooling_Min_KW (min cfg.Cooling_Max_KW (target_heat_removed_kw / cop))
  let delta_cool := target_cooling_kw - st.P_cool_kw
  let max_change := cfg.Cooling_Ramp_Max * dt_s
  let delta_cool_clamped := max (-max_change) (min max_change delta_cool)
  let next_cooling_kw :=
    max cfg.Cooling_Min_KW (min cfg.Cooling_Max_KW (st.P_cool_kw + delta_cool_clamped))
  let q_active := next_cooling_kw * cop
  let net_heat_kw := P_it_kw - (q_passive + q_active)
  let C_mass := dynamic_C_mass_kj_per_c cfg st
  let delta_T := net_heat_kw * dt_s / C_mass
  let next_temp_c := max cfg.T_min (st.T_c + delta_T)
  { rack_temp_c_next := next_temp_c
    cooling_kw_next := next_cooling_kw
    thermal_ok_next := decide (next_temp_c < cfg.T_max)
    thermal_headroom_kw := calculate_headroom_kw cfg next_temp_c next_cooling_kw
    q_passive_kw := q_passive
    q_active_kw := q_active
    cooling_target_kw := target_cooling_kw
    cooling_cop := cop }

/-- `ThermalTwin.step`: `predict` followed by the state commit;
returns the committed state together with the prediction. -/
def step (cfg : ThermalTwinConfig) (st : ThermalTwinState)
    (P_it_kw dt_s : ℚ) : ThermalTwinState × Prediction :=
  let pred := predict cfg st P_it_kw dt_s
  (⟨pred.rack_temp_c_next, pred.cooling_kw_next⟩, pred)

/-! ## Policy engine (`backend/app/services/policy_engine.py`) -/

/-- `arrhenius_aging_step`: capacity-loss increment per step,
`k · exp(-Ea/(R·T_k)) · throughput · dt`, clamped nonnegative.
`expf` is the oracle standing for `math.exp`. -/
def arrhenius_aging_step (expf : ℚ → ℚ) (cfg : BatteryDegradationConfig)
    (T_c throughput_kw dt_s : ℚ) : ℚ :=
  let T_c := min T_c cfg.max_temp_for_aging_c
  let T_k := T_c + 27315/100
  let aging_factor := expf (-cfg.Ea / (cfg.R_gas * T_k))
  let throughput_kw := max 0 throughput_kw
  let dcap := cfg.k_aging * aging_factor * throughput_kw * dt_s
  max 0 dcap

/-- Result of `simulate_candidate`: success flag, retained step rows,
accumulated capacity loss, and the trace events emitted during the run. -/
structure SimResult where
  ok : Bool
  steps : List RampPlanStep
  cap_loss_accum : ℚ
  events : List DecisionTraceEvent

/-- The body of `simulate_candidate`'s `for i in range(steps_n)` loop.
`fuel` is the number of remaining iterations, `i` the current step index;
`tw` is the local thermal copy, `current_delta` and `cap_loss` the loop
accumulators.  Each iteration ramp-limits ΔP, predicts the thermal step,
accumulates Arrhenius aging, and applies the margin / over-temperature /
battery-wear gates in the source's order, returning early on failure. -/
def simLoop (expf : ℚ → ℚ) (cfg : ThermalTwinConfig)
    (batt : BatteryDegradationConfig) (P_site_kw ramp_rate_kw_per_s desired_kw : ℚ)
    (dt_s : ℕ) : ℕ → ℕ → ThermalTwinState → ℚ → ℚ → SimResult
  | 0, _, _, _, cap_loss => { ok := true, steps := [], cap_loss_accum := cap_loss, events := [] }
  | fuel + 1, i, tw, current_delta, cap_loss =>
    let delta_err := desired_kw - current_delta
    let max_step := ramp_rate_kw_per_s * (dt_s : ℚ)
    let delta_step := max (-max_step) (min max_step delta_err)
    let next_delta := current_delta + delta_step
    let rampEvents : List DecisionTraceEvent :=
      if max_step - 1/10^9 ≤ |delta_step| ∧ 1/10^6 < |delta_err| then
        [{ component := .RAMP, rule_id := "RAMP_RATE_LIMIT", status := .INFO,
           severity := .LOW, value := some delta_step, threshold := some max_step,
           units := some "kW/step", proposed_deltaP_kw := some desired_kw,
           approved_deltaP_kw := some next_delta }]
      else []
    let P_total_kw := P_site_kw + next_delta
    let pred := predict cfg tw P_total_kw (dt_s : ℚ)
    let throughput_kw := |next_delta| + |pred.cooling_kw_next - tw.P_cool_kw|
    let dcap := arrhenius_aging_step expf batt pred.rack_temp_c_next throughput_kw (dt_s : ℚ)
    let cap_loss := cap_loss + dcap
    let agingEvent : DecisionTraceEvent :=
      { component := .POLICY, rule_id := "BATTERY_AGING_STEP", status := .INFO,
        severity := .LOW, value := some dcap,
        threshold := some batt.max_cap_loss_frac_per_decision,
        units := some "cap_loss_frac", proposed_deltaP_kw := some next_delta,
        approved_deltaP_kw := some next_delta, rack_temp_c := some pred.rack_temp_c_next }
    let thermal_margin_c := cfg.T_max - pred.rack_temp_c_next
    if thermal_margin_c < 1/2 then
      { ok := false
        steps := [{ t_offset_s := i * dt_s, proposed_deltaP_kw := next_delta,
                    rack_temp_c := pred.rack_temp_c_next,
                    cooling_kw := pred.cooling_kw_next, thermal_ok := false,
                    thermal_headroom_kw := pred.thermal_headroom_kw,
                    reason := "THERMAL_MARGIN_TOO_THIN" }]
        cap_loss_accum := cap_loss
        events := rampEvents ++ [agingEvent,
          { component := .THERMAL, rule_id := "THERMAL_MARGIN_TOO_THIN",
            status := .BLOCKED, severity := .MEDIUM,
            value := some pred.rack_temp_c_next, threshold := some (cfg.T_max - 1/2),
            units := some "°C", proposed_deltaP_kw := some next_delta,
            approved_deltaP_kw := some 0, rack_temp_c := some pred.rack_temp_c_next }] }
    else if pred.thermal_ok_next = false then
      { ok := false
        steps := [{ t_offset_s := i * dt_s, proposed_deltaP_kw := next_delta,
                    rack_temp_c := pred.rack_temp_c_next,
                    cooling_kw := pred.cooling_kw_next, thermal_ok := false,
                    thermal_headroom_kw := pred.thermal_headroom_kw,
                    reason := "THERMAL_OVER_TEMP" }]
        cap_loss_accum := cap_loss
        events := rampEvents ++ [agingEvent,
          { component := .THERMAL, rule_id := "THERMAL_OVER_TEMP",
            status := .BLOCKED, severity := .HIGH,
            value := some pred.rack_temp_c_next, threshold := some cfg.T_max,
            units := some "°C", proposed_deltaP_kw := some next_delta,
            approved_deltaP_kw := some 0, rack_temp_c := some pred.rack_temp_c_next }] }
    else if batt.max_cap_loss_frac_per_decision < cap_loss then
      { ok := false
        steps := [{ t_offset_s := i * dt_s, proposed_deltaP_kw := next_delta,
                    rack_temp_c := pred.rack_temp_c_next,
                    cooling_kw := pred.cooling_kw_next, thermal_ok := false,
                    thermal_headroom_kw := pred.thermal_headroom_kw,
                    reason := "BATTERY_WEAR_BLOCKED" }]
        cap_loss_accum := cap_loss
        events := rampEvents ++ [agingEvent,
          { component := .POLICY, rule_id := "BATTERY_WEAR_BLOCKED",
            status := .BLOCKED, severity := .MEDIUM,
            value := some cap_loss, threshold := some batt.max_cap_loss_frac_per_decision,
            units := some "cap_loss_frac", proposed_deltaP_kw := some desired_kw,
            approved_deltaP_kw := some 0, rack_temp_c := some pred.rack_temp_c_next }] }
    else
      let okStep : RampPlanStep :=
        { t_offset_s := i * dt_s, proposed_deltaP_kw := next_delta,
          rack_temp_c := pred.rack_temp_c_next, cooling_kw := pred.cooling_kw_next,
          thermal_ok := true, thermal_headroom_kw := pred.thermal_headroom_kw,
          reason := "OK" }
      let stepEvent : DecisionTraceEvent :=
        { component := .THERMAL, rule_id := "THERMAL_PREDICT_STEP", status := .ALLOWED,
          severity := .LOW, value := some pred.rack_temp_c_next,
          threshold := some cfg.T_max, units := some "°C",
          proposed_deltaP_kw := some next_delta, approved_deltaP_kw := some next_delta,
          rack_temp_c := some pred.rack_temp_c_next }
      let rest := simLoop expf cfg batt P_site_kw ramp_rate_kw_per_s desired_kw dt_s
        fuel (i + 1) ⟨pred.rack_temp_c_next, pred.cooling_kw_next⟩ next_delta cap_loss
      { ok := rest.ok
        steps := okStep :: rest.steps
        cap_loss_accum := rest.cap_loss_accum
        events := rampEvents ++ [agingEvent, stepEvent] ++ rest.events }

/-- `steps_n = max(1, int(horizon_s // dt_s))` from `build_ramp_plan`. -/
def stepsN (horizon_s dt_s : ℕ) : ℕ := max 1 (horizon_s / dt_s)

/-- `simulate_candidate(desired_kw)` as closed over by `build_ramp_plan`:
runs the loop for `steps_n` steps on a fresh copy of the live state. -/
def simulate_candidate (expf : ℚ → ℚ) (cfg : ThermalTwinConfig)
    (batt : BatteryDegradationConfig) (P_site_kw ramp_rate_kw_per_s : ℚ)
    (horizon_s dt_s : ℕ) (st : ThermalTwinState) (desired_kw : ℚ) : SimResult :=
  simLoop expf cfg batt P_site_kw ramp_rate_kw_per_s desired_kw dt_s
    (stepsN horizon_s dt_s) 0 ⟨st.T_c, st.P_cool_kw⟩ 0 0

/-- State carried out of the binary search: best feasible ΔP, its retained
step rows and capacity loss, and the trace events emitted by the probes. -/
structure SearchResult where
  best : ℚ
  best_steps : List RampPlanStep
  best_cap_loss : ℚ
  events : List DecisionTraceEvent

/-- The 20-iteration binary search of `build_ramp_plan`: probe the
midpoint; on success move `low` (and the retained plan) up, otherwise
move `high` down. -/
def searchLoop (sim : ℚ → SimResult) :
    ℕ → ℚ → ℚ → ℚ → List RampPlanStep → ℚ → SearchResult
  | 0, _, _, best, best_steps, best_cap_loss =>
    { best := best, best_steps := best_steps, best_cap_loss := best_cap_loss, events := [] }
  | n + 1, low, high, best, best_steps, best_cap_loss =>
    let mid := (low + high) / 2
    let r := sim mid
    if r.ok then
      let rest := searchLoop sim n mid high mid r.steps r.cap_loss_accum
      { best := rest.best, best_steps := rest.best_steps,
        best_cap_loss := rest.best_cap_loss, events := r.events ++ rest.events }
    else
      let rest := searchLoop sim n low mid best best_steps best_cap_loss
      { best := rest.best, best_steps := rest.best_steps,
        best_cap_loss := rest.best_cap_loss, events := r.events ++ rest.events }

/-- What `build_ramp_plan` returns, with the trace sink's contents.
`debug` is the `prediction_debug` dict (an association list, since the
early return and the main return build different shapes). -/
structure BuildResult where
  approved : ℚ
  plan : RampPlan
  debug : List (String × ℚ)
  trace : List DecisionTraceEvent

/-- `build_ramp_plan`: grid clamp (with early blocked return on zero cap),
candidate simulation + binary search, blocked-reason classification, and
the final `APPROVED_DELTA_SELECTED` emission. -/
def build_ramp_plan (expf : ℚ → ℚ) (P_site_kw grid_headroom_kw : ℚ)
    (cfg : ThermalTwinConfig) (st : ThermalTwinState) (deltaP_request_kw : ℚ)
    (horizon_s dt_s : ℕ) (ramp_rate_kw_per_s : ℚ) : BuildResult :=
  let batt : BatteryDegradationConfig := {}
  let req := max 0 deltaP_request_kw
  let headroom := max 0 grid_headroom_kw
  let deltaP_cap := min req headroom
  let clampEvents : List DecisionTraceEvent :=
    [{ component := .GRID, rule_id := "GRID_HEADROOM_CLAMP", status := .INFO,
       severity := .LOW, value := some req, threshold := some headroom,
       units := some "kW", proposed_deltaP_kw := some req,
       approved_deltaP_kw := some deltaP_cap }] ++
    (if deltaP_cap < req then
      [{ component := .GRID, rule_id := "GRID_HEADROOM_REDUCED_ACTION",
         status := .BLOCKED, severity := .MEDIUM, units := some "kW",
         proposed_deltaP_kw := some req, approved_deltaP_kw := some deltaP_cap }]
     else [])
  if deltaP_cap ≤ 0 then
    { approved := 0
      plan := { requested_deltaP_kw := req, approved_deltaP_kw := 0,
                blocked := true, reason := "GRID_HEADROOM_ZERO", steps := [] }
      debug := [("grid_headroom_kw", headroom)]
      trace := clampEvents ++
        [{ component := .GRID, rule_id := "GRID_HEADROOM_ZERO", status := .BLOCKED,
           severity := .HIGH, units := some "kW", proposed_deltaP_kw := some req,
           approved_deltaP_kw := some 0 }] }
  else
    let sim := simulate_candidate expf cfg batt P_site_kw ramp_rate_kw_per_s
      horizon_s dt_s st
    let s := searchLoop sim 20 0 deltaP_cap 0 [] 0
    let blocked := decide (s.best ≤ 1/10^6)
    let classification : String × Option ComponentType × Option ℚ × Option ℚ ×
        List DecisionTraceEvent :=
      if blocked then
        if deltaP_cap ≤ 1/10^6 then
          ("GRID_HEADROOM_ZERO", some .GRID, some req, some headroom, [])
        else
          let probe := sim deltaP_cap
          if probe.ok = false then
            if batt.max_cap_loss_frac_per_decision < probe.cap_loss_accum then
              ("BATTERY_WEAR_BLOCKED", some .POLICY, some probe.cap_loss_accum,
               some batt.max_cap_loss_frac_per_decision, probe.events)
            else
              ("THERMAL_BLOCKED", some .THERMAL,
               some (predict cfg ⟨st.T_c, st.P_cool_kw⟩
                 (P_site_kw + deltaP_cap) (dt_s : ℚ)).rack_temp_c_next,
               some cfg.T_max, probe.events)
          else ("OK", none, none, none, probe.events)
      else ("OK", none, none, none, [])
    let adsEvent : DecisionTraceEvent :=
      { component := .POLICY, rule_id := "APPROVED_DELTA_SELECTED",
        status := if blocked then .BLOCKED else .ALLOWED,
        severity := if blocked then .HIGH else .LOW,
        proposed_deltaP_kw := some req, approved_deltaP_kw := some s.best }
    { approved := s.best
      plan := { requested_deltaP_kw := req, approved_deltaP_kw := s.best,
                blocked := blocked, reason := classification.1,
                primary_constraint := classification.2.1,
                constraint_value := classification.2.2.1,
                constraint_threshold := classification.2.2.2.1,
                steps := s.best_steps }
      debug := [("grid_headroom_kw", headroom), ("grid_cap_kw", deltaP_cap),
                ("battery_cap_loss_accum", s.best_cap_loss),
                ("horizon_s", (horizon_s : ℚ)), ("dt_s", (dt_s : ℚ)),
                ("ramp_rate_kw_per_s", ramp_rate_kw_per_s)]
      trace := clampEvents ++ s.events ++ classification.2.2.2.2 ++ [adsEvent] }

/-! ## Decision orchestrator (`backend/app/services/digital_twin.py`) -/

/-- The fields of the dict returned by `DigitalTwinService.decide` that
carry decision logic (`ts`, `decision_id`, `confidence` and the
persistence side effects are omitted; none is read by the decision path). -/
structure DecideResult where
  requested_deltaP_kw : ℚ
  approved_deltaP_kw : ℚ
  blocked : Bool
  reason : String
  plan : RampPlan
  trace : List DecisionTraceEvent

/-- `DigitalTwinService.decide`: clamp headroom by the optional GNN limit,
invoke the planner on the live state, and commit step 0 of an approved
plan.  The returned `ThermalTwinState` is the live state after the call
(the source mutates `self.therm_state` in place). -/
def DigitalTwinService_decide (expf : ℚ → ℚ) (gnn_limit_kw : Option ℚ)
    (cfg : ThermalTwinConfig) (st : ThermalTwinState)
    (deltaP_request_kw P_site_kw grid_headroom_kw : ℚ)
    (horizon_s dt_s : ℕ) (ramp_rate_kw_per_s : ℚ) :
    DecideResult × ThermalTwinState :=
  let effective_headroom :=
    match gnn_limit_kw with
    | some g => if g < grid_headroom_kw then g else grid_headroom_kw
    | none => grid_headroom_kw
  let gnnEvents : List DecisionTraceEvent :=
    match gnn_limit_kw with
    | some g =>
      if g < grid_headroom_kw then
        [{ component := .GNN, rule_id := "GNN_HEADROOM_CAP", status := .INFO,
           severity := .LOW, value := some g, threshold := some grid_headroom_kw }]
      else []
    | none => []
  let r := build_ramp_plan expf P_site_kw effective_headroom cfg st
    deltaP_request_kw horizon_s dt_s ramp_rate_kw_per_s
  let st' :=
    match r.plan.blocked, r.plan.steps with
    | false, first_step :: _ => ⟨first_step.rack_temp_c, first_step.cooling_kw⟩
    | _, _ => st
  ({ requested_deltaP_kw := deltaP_request_kw, approved_deltaP_kw := r.approved,
     blocked := r.plan.blocked, reason := r.plan.reason, plan := r.plan,
     trace := gnnEvents ++ r.trace }, st')

/-! ## Telemetry series generator (`DigitalTwinService.get_timeseries`)

The Python loop threads `(temp, cooling, prev_freq)` through the 60
points; the embedding names the pre-point-`i` value of that triple
`tsSimState i` and derives each point from it, which is the same
recursion unrolled.  `rngU seed k` is the `k`-th value drawn from
`random.Random(seed)` (two `uniform` draws per point: the frequency
noise then the load perturbation), `sinf` stands for `math.sin`,
`carbon` for an attached carbon service (a pure function of the point's
timestamp) and `gnn` for an attached, ready GNN service (abstracted as a
function of the point index, covering its internal tensor randomness). -/

structure TimeseriesPoint where
  ts : ℤ
  frequency_hz : ℚ
  rocof_hz_s : ℚ
  stress_score : ℚ
  it_load_kw : ℚ
  total_load_kw : ℚ
  safe_shift_kw : ℚ
  carbon_g_per_kwh : ℚ
  rack_temp_c : ℚ
  cooling_kw : ℚ
  q_passive_kw : ℚ
  q_active_kw : ℚ
  cooling_target_kw : ℚ
  cooling_cop : ℚ

/-- Grid frequency of point `i`: a deterministic dip window at indices
25–35 plus seeded noise (`rng.uniform(-0.02, 0.02)`). -/
def tsFreq (stream : ℕ → ℚ) (i : ℕ) : ℚ :=
  if 25 ≤ i ∧ i ≤ 35 then 60 - 3/20 + stream (2 * i) else 60 + stream (2 * i)

/-- IT load of point `i`: `1000 + rng.uniform(-15, 15)`. -/
def tsLoad (stream : ℕ → ℚ) (i : ℕ) : ℚ := 1000 + stream (2 * i + 1)

/-- `(temp, cooling, prev_freq)` before point `i` is generated. -/
def tsSimState (cfg : ThermalTwinConfig) (live : ThermalTwinState)
    (stream : ℕ → ℚ) (step_size : ℤ) : ℕ → ℚ × ℚ × ℚ
  | 0 => (live.T_c, live.P_cool_kw, 60)
  | i + 1 =>
    let s := tsSimState cfg live stream step_size i
    let pred := predict cfg ⟨s.1, s.2.1⟩ (tsLoad stream i) (step_size : ℚ)
    (pred.rack_temp_c_next, pred.cooling_kw_next, tsFreq stream i)

/-- Point `i` of the generated series. -/
def tsPoint (sinf : ℚ → ℚ) (carbon : Option (ℤ → ℚ)) (gnn : Option (ℕ → ℚ))
    (cfg : ThermalTwinConfig) (live : ThermalTwinState) (stream : ℕ → ℚ)
    (now window_s step_size : ℤ) (i : ℕ) : TimeseriesPoint :=
  let s := tsSimState cfg live stream step_size i
  let t := now - (window_s - (i : ℤ) * step_size)
  let freq := tsFreq stream i
  let rocof := (freq - s.2.2) / (step_size : ℚ)
  let stress : ℚ := if 25 ≤ i ∧ i ≤ 35 then 17/20 else 1/10
  let it_load := tsLoad stream i
  let carbon_val :=
    match carbon with
    | some f => f t
    | none => 450 + sinf ((i : ℚ) / 9) * 50
  let pred := predict cfg ⟨s.1, s.2.1⟩ it_load (step_size : ℚ)
  let temp := pred.rack_temp_c_next
  let cooling := pred.cooling_kw_next
  let safe_shift0 : ℚ := if cfg.T_max - 2 < temp then 800 else 1200
  let safe_shift1 := if 25 ≤ i ∧ i ≤ 35 then min safe_shift0 900 else safe_shift0
  let safe_shift := match gnn with | some g => g i | none => safe_shift1
  { ts := t, frequency_hz := freq, rocof_hz_s := rocof, stress_score := stress,
    it_load_kw := it_load, total_load_kw := it_load + cooling,
    safe_shift_kw := safe_shift, carbon_g_per_kwh := carbon_val,
    rack_temp_c := temp, cooling_kw := cooling, q_passive_kw := pred.q_passive_kw,
    q_active_kw := pred.q_active_kw, cooling_target_kw := pred.cooling_target_kw,
    cooling_cop := pred.cooling_cop }

/-- The `for i in range(num_points)` emission, head first. -/
def tsPointsFrom (sinf : ℚ → ℚ) (carbon : Option (ℤ → ℚ)) (gnn : Option (ℕ → ℚ))
    (cfg : ThermalTwinConfig) (live : ThermalTwinState) (stream : ℕ → ℚ)
    (now window_s step_size : ℤ) : ℕ → ℕ → List TimeseriesPoint
  | 0, _ => []
  | fuel + 1, i =>
    tsPoint sinf carbon gnn cfg live stream now window_s step_size i ::
      tsPointsFrom sinf carbon gnn cfg live stream now window_s step_size fuel (i + 1)

/-- `DigitalTwinService.get_timeseries`.  `now0` is the wall clock at call
time (`datetime.now()`); in replay mode with a parseable `end_ts` the
source overwrites it with the parsed end timestamp.  `deterministic` and
`demo_seed` are the service's demo flags; `live` is `self.therm_state`
at call time. -/
def get_timeseries (sinf : ℚ → ℚ) (rngU : ℤ → ℕ → ℚ)
    (carbon : Option (ℤ → ℚ)) (gnn : Option (ℕ → ℚ))
    (deterministic : Bool) (demo_seed : ℤ)
    (cfg : ThermalTwinConfig) (live : ThermalTwinState)
    (now0 window_s0 : ℤ) (end_ts : Option ℤ) (replay : Bool) :
    List TimeseriesPoint :=
  let now := match end_ts, replay with | some e, true => e | _, _ => now0
  let window_s := max 60 window_s0
  let step_size := max 1 (window_s / 60)
  let seed_val :=
    if deterministic then
      demo_seed + window_s + (match end_ts, replay with | some _, true => now | _, _ => 0)
    else now / 60
  let stream := rngU seed_val
  tsPointsFrom sinf carbon gnn cfg live stream now window_s step_size 60 0

/-- A step row that passed every thermal gate: recorded `thermal_ok`,
temperature strictly below `T_max`, and thermal margin at least 0.5 °C. -/
def stepGood (cfg : ThermalTwinConfig) (s : RampPlanStep) : Prop :=
  s.thermal_ok = true ∧ s.rack_temp_c < cfg.T_max ∧ 1/2 ≤ cfg.T_max - s.rack_temp_c

/-! ### A thermally benign concrete scenario

Used to witness the search actually approving a positive ΔP: no passive
coupling, cooling actuator pinned at 0, a huge `T_max`, static thermal
mass, and a zero exp-oracle (so the aging increment is exactly 0). -/

def cfgB : ThermalTwinConfig :=
  { C_mass := 150, K_transfer := 0, T_max := 10^6, T_ambient := 20, T_min := 0,
    Cooling_Ramp_Max := 150, Cooling_COP := 4, T_setpoint := 30, T_deadband := 1/2,
    Cooling_Min_KW := 0, Cooling_Max_KW := 0, use_dynamic_coolant_mass := false }

/-! ### A thermally blocked concrete scenario: rack at 49.9 °C with the
cooling actuator pinned at 0 and `T_max = 50`, so the 0.5 °C margin gate
trips on the very first step of every candidate. -/

def cfgW : ThermalTwinConfig :=
  { C_mass := 150, K_transfer := 0, T_max := 50, T_ambient := 20, T_min := 0,
    Cooling_Ramp_Max := 150, Cooling_COP := 4, T_setpoint := 30, T_deadband := 1/2,
    Cooling_Min_KW := 0, Cooling_Max_KW := 0, use_dynamic_coolant_mass := false }

/-! ## Helper lemmas -/

theorem le_clamp (lo hi x : ℚ) : lo ≤ max lo (min hi x) :=
  le_max_left _ _

theorem clamp_le (lo hi x : ℚ) (h : lo ≤ hi) : max lo (min hi x) ≤ hi :=
  max_le h (min_le_left _ _)

theorem abs_ramp_clamp_le (m d : ℚ) (hm : 0 ≤ m) : |max (-m) (min m d)| ≤ m :=
  abs_le.2 ⟨le_max_left _ _, max_le (by linarith) (min_le_left _ _)⟩

theorem abs_clamp_add_sub_le (lo hi p c m : ℚ) (hlo : lo ≤ p) (hhi : p ≤ hi)
    (hc : |c| ≤ m) : |max lo (min hi (p + c)) - p| ≤ m := by
  obtain ⟨hc1, hc2⟩ := abs_le.1 hc
  rcases le_total (p + c) hi with h1 | h1
  · rw [min_eq_right h1]
    rcases le_total lo (p + c) with h2 | h2
    · rw [max_eq_right h2]
      exact abs_le.2 ⟨by linarith, by linarith⟩
    · rw [max_eq_left h2]
      exact abs_le.2 ⟨by linarith, by linarith⟩
  · rw [min_eq_left h1, max_eq_right (hlo.trans hhi)]
    exact abs_le.2 ⟨by linarith, by linarith⟩

/-- The zero-cap early return of `build_ramp_plan`, in closed form. -/
theorem build_early (expf : ℚ → ℚ) (P_site_kw grid_headroom_kw : ℚ)
    (cfg : ThermalTwinConfig) (st : ThermalTwinState) (deltaP_request_kw : ℚ)
    (horizon_s dt_s : ℕ) (ramp_rate_kw_per_s : ℚ)
    (hcap : min (max 0 deltaP_request_kw) (max 0 grid_headroom_kw) ≤ 0) :
    build_ramp_plan expf P_site_kw grid_headroom_kw cfg st deltaP_request_kw
      horizon_s dt_s ramp_rate_kw_per_s =
    { approved := 0
      plan := { requested_deltaP_kw := max 0 deltaP_request_kw,
                approved_deltaP_kw := 0, blocked := true,
                reason := "GRID_HEADROOM_ZERO", steps := [] }
      debug := [("grid_headroom_kw", max 0 grid_headroom_kw)]
      trace :=
        ([{ component := .GRID, rule_id := "GRID_HEADROOM_CLAMP", status := .INFO,
            severity := .LOW, value := some (max 0 deltaP_request_kw),
            threshold := some (max 0 grid_headroom_kw), units := some "kW",
            proposed_deltaP_kw := some (max 0 deltaP_request_kw),
            approved_deltaP_kw :=
              some (min (max 0 deltaP_request_kw) (max 0 grid_headroom_kw)) }] ++
         (if min (max 0 deltaP_request_kw) (max 0 grid_headroom_kw) <
              max 0 deltaP_request_kw then
            [{ component := .GRID, rule_id := "GRID_HEADROOM_REDUCED_ACTION",
               status := .BLOCKED, severity := .MEDIUM, units := some "kW",
               proposed_deltaP_kw := some (max 0 deltaP_request_kw),
               approved_deltaP_kw :=
                 some (min (max 0 deltaP_request_kw) (max 0 grid_headroom_kw)) }]
          else [])) ++
        [{ component := .GRID, rule_id := "GRID_HEADROOM_ZERO", status := .BLOCKED,
           severity := .HIGH, units := some "kW",
           proposed_deltaP_kw := some (max 0 deltaP_request_kw),
           approved_deltaP_kw := some 0 }] } := by
  rw [build_ramp_plan]
  simp only [if_pos hcap]

/-! ## Claim C4 — thermal-twin state invariant -/

/-- C4: every `ThermalTwin.predict`/`step` (hence every background tick and
every plan step) preserves the state invariant: starting from a cooling
power within `[Cooling_Min_KW, Cooling_Max_KW]`, and with a nonnegative
time step and ramp limit (true of every call site), the committed next
state keeps the cooling power in bounds, changes it by at most
`Cooling_Ramp_Max · dt`, and keeps the temperature at or above `T_min`
after integration. -/
theorem c4_step_invariants (cfg : ThermalTwinConfig) (st : ThermalTwinState)
    (P_it_kw dt_s : ℚ)
    (hlo : cfg.Cooling_Min_KW ≤ st.P_cool_kw)
    (hhi : st.P_cool_kw ≤ cfg.Cooling_Max_KW)
    (hdt : 0 ≤ dt_s) (hramp : 0 ≤ cfg.Cooling_Ramp_Max) :
    cfg.Cooling_Min_KW ≤ (step cfg st P_it_kw dt_s).1.P_cool_kw ∧
    (step cfg st P_it_kw dt_s).1.P_cool_kw ≤ cfg.Cooling_Max_KW ∧
    |(step cfg st P_it_kw dt_s).1.P_cool_kw - st.P_cool_kw| ≤
      cfg.Cooling_Ramp_Max * dt_s ∧
    cfg.T_min ≤ (step cfg st P_it_kw dt_s).1.T_c := by
  simp only [step, predict]
  refine ⟨le_clamp _ _ _, clamp_le _ _ _ (hlo.trans hhi), ?_, le_max_left _ _⟩
  exact abs_clamp_add_sub_le _ _ _ _ _ hlo hhi
    (abs_ramp_clamp_le _ _ (mul_nonneg hramp hdt))

/-- C4 witness: the invariant instantiated at the default configuration and
the service's initial live state (`T_c=27`, `P_cool_kw=250`), `dt = 1`. -/
theorem c4_witness :
    ({} : ThermalTwinConfig).Cooling_Min_KW ≤ (250 : ℚ) ∧
    (250 : ℚ) ≤ ({} : ThermalTwinConfig).Cooling_Max_KW ∧
    (({} : ThermalTwinConfig).Cooling_Min_KW ≤
        (step {} ⟨27, 250⟩ 1000 1).1.P_cool_kw ∧
      (step {} ⟨27, 250⟩ 1000 1).1.P_cool_kw ≤ ({} : ThermalTwinConfig).Cooling_Max_KW ∧
      |(step {} ⟨27, 250⟩ 1000 1).1.P_cool_kw - (250 : ℚ)| ≤
        ({} : ThermalTwinConfig).Cooling_Ramp_Max * 1 ∧
      ({} : ThermalTwinConfig).T_min ≤ (step {} ⟨27, 250⟩ 1000 1).1.T_c) :=
  ⟨by norm_num, by norm_num,
    c4_step_invariants {} ⟨27, 250⟩ 1000 1 (by norm_num) (by norm_num)
      (by norm_num) (by norm_num)⟩

/-! ## Claim C9 — divisors of `ThermalTwin.predict` -/

/-- C9 counterexample: the claim asserts that *every* divisor of `predict`
is clamped strictly positive for *any* config.  With the dynamic coolant
mass disabled the fallback `C_mass` is returned unclamped: a config with
`use_dynamic_coolant_mass = false` and `C_mass = 0` makes the thermal-mass
divisor exactly `0` (in Python, `predict` raises `ZeroDivisionError`
there), refuting the claim at that concrete input. -/
theorem c9_counterexample :
    ¬ (0 < (predict { C_mass := 0, use_dynamic_coolant_mass := false }
          ⟨27, 250⟩ 1000 1).cooling_cop ∧
       0 < dynamic_C_mass_kj_per_c
          { C_mass := 0, use_dynamic_coolant_mass := false } ⟨27, 250⟩) := by
  intro h
  have h2 := h.2
  rw [dynamic_C_mass_kj_per_c] at h2
  norm_num at h2

/-- C9 (amended): the COP divisor is clamped to at least `1e-6` on every
path, and the thermal-mass divisor is clamped to at least `1e-3` whenever
the dynamic coolant mass is enabled (as it is by default); with the
dynamic mass disabled the unclamped fallback `C_mass` is the divisor, so
totality additionally needs `C_mass ≠ 0`. -/
theorem c9_divisors (cfg : ThermalTwinConfig) (st : ThermalTwinState)
    (P_it_kw dt_s : ℚ) :
    0 < (predict cfg st P_it_kw dt_s).cooling_cop ∧
    (cfg.use_dynamic_coolant_mass = true → 0 < dynamic_C_mass_kj_per_c cfg st) ∧
    (cfg.use_dynamic_coolant_mass = false → dynamic_C_mass_kj_per_c cfg st = cfg.C_mass) := by
  refine ⟨?_, ?_, ?_⟩
  · show 0 < max (1/10^6) cfg.Cooling_COP
    exact lt_of_lt_of_le (by norm_num) (le_max_left _ _)
  · intro h
    rw [dynamic_C_mass_kj_per_c, h]
    exact lt_of_lt_of_le (by norm_num) (le_max_left _ _)
  · intro h
    rw [dynamic_C_mass_kj_per_c, h]
    simp

/-- C9 witness: the amended theorem applied at the default configuration
(dynamic coolant mass enabled) and the initial live state. -/
theorem c9_witness :
    0 < (predict {} ⟨27, 250⟩ 1000 1).cooling_cop ∧
    0 < dynamic_C_mass_kj_per_c {} ⟨27, 250⟩ :=
  ⟨(c9_divisors {} ⟨27, 250⟩ 1000 1).1,
   (c9_divisors {} ⟨27, 250⟩ 1000 1).2.1 rfl⟩

/-! ## Claim C1 — sign handling of import requests -/

/-- C1 counterexample: for the concrete negative (import) request
`ΔP = −100 kW` with strictly positive headroom (50 kW) and a benign
default thermal state, the claim asserts an approved ΔP of `−50 kW`
(sign reattached, magnitude `min(100, 50)`) and a non-blocked plan; the
code instead clamps the request to magnitude 0 (`req = max(0, ΔP)`),
takes the zero-cap early return, and yields a *blocked* plan with
approved ΔP `0`. -/
theorem c1_counterexample :
    ¬ ((build_ramp_plan (fun x => x) 1000 50 {} ⟨27, 250⟩ (-100) 30 1 50).approved
          = -(min |(-100 : ℚ)| (max 0 50)) ∧
       (build_ramp_plan (fun x => x) 1000 50 {} ⟨27, 250⟩ (-100) 30 1 50).plan.blocked
          = false) := by
  have hcap : min (max 0 (-100 : ℚ)) (max 0 (50 : ℚ)) ≤ 0 := by norm_num
  intro h
  have h2 := h.2
  rw [build_ramp_plan] at h2
  simp only [hcap, if_pos] at h2
  norm_num at h2

/-- C1 (amended): signed requests are *not* searched in magnitude with the
sign reattached; the planner clamps the request at zero
(`req = max(0, ΔP_request)`), so *every* negative (import) request yields
the blocked `GRID_HEADROOM_ZERO` plan with approved ΔP `0`, for every
headroom and thermal state. -/
theorem c1_import_requests_blocked (expf : ℚ → ℚ)
    (P_site_kw grid_headroom_kw : ℚ) (cfg : ThermalTwinConfig)
    (st : ThermalTwinState) (deltaP_request_kw : ℚ) (horizon_s dt_s : ℕ)
    (ramp_rate_kw_per_s : ℚ) (hneg : deltaP_request_kw < 0) :
    (build_ramp_plan expf P_site_kw grid_headroom_kw cfg st deltaP_request_kw
        horizon_s dt_s ramp_rate_kw_per_s).approved = 0 ∧
    (build_ramp_plan expf P_site_kw grid_headroom_kw cfg st deltaP_request_kw
        horizon_s dt_s ramp_rate_kw_per_s).plan.blocked = true ∧
    (build_ramp_plan expf P_site_kw grid_headroom_kw cfg st deltaP_request_kw
        horizon_s dt_s ramp_rate_kw_per_s).plan.reason = "GRID_HEADROOM_ZERO" := by
  have hreq : max 0 deltaP_request_kw = 0 := max_eq_left hneg.le
  have hcap : min (max 0 deltaP_request_kw) (max 0 grid_headroom_kw) ≤ 0 := by
    rw [hreq]
    exact min_le_left _ _
  rw [build_ramp_plan]
  simp [hcap]

/-- C1 witness: the amended theorem applied at the counterexample's
concrete input. -/
theorem c1_witness :
    (-100 : ℚ) < 0 ∧
    (build_ramp_plan (fun x => x) 1000 50 {} ⟨27, 250⟩ (-100) 30 1 50).approved = 0 ∧
    (build_ramp_plan (fun x => x) 1000 50 {} ⟨27, 250⟩ (-100) 30 1 50).plan.blocked
      = true ∧
    (build_ramp_plan (fun x => x) 1000 50 {} ⟨27, 250⟩ (-100) 30 1 50).plan.reason
      = "GRID_HEADROOM_ZERO" :=
  ⟨by norm_num,
   c1_import_requests_blocked (fun x => x) 1000 50 {} ⟨27, 250⟩ (-100) 30 1 50
     (by norm_num)⟩

/-! ## Claim C2 — approved ΔP never exceeds request or headroom -/

/-- Invariant of the binary search: the running `best` (and hence the
returned one) stays within `[0, B]` as long as `low`, `high` do. -/
theorem searchLoop_best_bounds (sim : ℚ → SimResult) (B : ℚ) :
    ∀ (n : ℕ) (low high best : ℚ) (bs : List RampPlanStep) (bc : ℚ),
      0 ≤ low → low ≤ high → high ≤ B → 0 ≤ best → best ≤ B →
      0 ≤ (searchLoop sim n low high best bs bc).best ∧
        (searchLoop sim n low high best bs bc).best ≤ B := by
  intro n
  induction n with
  | zero =>
    intro low high best bs bc _ _ _ hb0 hbB
    exact ⟨hb0, hbB⟩
  | succ n ih =>
    intro low high best bs bc h0l hlh hhB hb0 hbB
    have h0m : 0 ≤ (low + high) / 2 := by linarith
    have hlm : low ≤ (low + high) / 2 := by linarith
    have hmh : (low + high) / 2 ≤ high := by linarith
    simp only [searchLoop]
    by_cases hok : (sim ((low + high) / 2)).ok = true
    · rw [if_pos hok]
      exact ih _ _ _ _ _ h0m hmh hhB h0m (hmh.trans hhB)
    · rw [if_neg hok]
      exact ih _ _ _ _ _ h0l hlm (hmh.trans hhB) hb0 hbB

/-- C2: for every call to `build_ramp_plan` (any exp oracle, any inputs),
the approved ΔP satisfies `0 ≤ |approved| ≤ min(|request|, max(0, headroom))`:
the binary search only probes values in `[0, cap]` with
`cap = min(max(0, request), max(0, headroom))`, and the zero-cap early
return approves `0`. -/
theorem c2_approved_bounds (expf : ℚ → ℚ) (P_site_kw grid_headroom_kw : ℚ)
    (cfg : ThermalTwinConfig) (st : ThermalTwinState) (deltaP_request_kw : ℚ)
    (horizon_s dt_s : ℕ) (ramp_rate_kw_per_s : ℚ) :
    0 ≤ (build_ramp_plan expf P_site_kw grid_headroom_kw cfg st deltaP_request_kw
        horizon_s dt_s ramp_rate_kw_per_s).approved ∧
    |(build_ramp_plan expf P_site_kw grid_headroom_kw cfg st deltaP_request_kw
        horizon_s dt_s ramp_rate_kw_per_s).approved| ≤
      min |deltaP_request_kw| (max 0 grid_headroom_kw) := by
  have hcapmin : min (max 0 deltaP_request_kw) (max 0 grid_headroom_kw) ≤
      min |deltaP_request_kw| (max 0 grid_headroom_kw) :=
    min_le_min (max_le (abs_nonneg _) (le_abs_self _)) (le_refl _)
  rw [build_ramp_plan]
  by_cases hcap : min (max 0 deltaP_request_kw) (max 0 grid_headroom_kw) ≤ (0 : ℚ)
  · simp only [if_pos hcap]
    refine ⟨le_refl 0, ?_⟩
    rw [abs_zero]
    exact le_min (abs_nonneg _) (le_max_left _ _)
  · simp only [if_neg hcap]
    push_neg at hcap
    obtain ⟨h1, h2⟩ := searchLoop_best_bounds
      (simulate_candidate expf cfg {} P_site_kw ramp_rate_kw_per_s horizon_s dt_s st)
      (min (max 0 deltaP_request_kw) (max 0 grid_headroom_kw))
      20 0 (min (max 0 deltaP_request_kw) (max 0 grid_headroom_kw)) 0 [] 0
      (le_refl 0) hcap.le (le_refl _) (le_refl 0) hcap.le
    exact ⟨h1, by rw [abs_of_nonneg h1]; exact h2.trans hcapmin⟩

/-! ## Claim C3 — retained plan steps satisfy the thermal gates -/

theorem bool_ne_false (b : Bool) (h : ¬ b = false) : b = true := by
  cases b <;> simp_all

theorem predict_thermal_ok_iff (cfg : ThermalTwinConfig) (st : ThermalTwinState)
    (P_it_kw dt_s : ℚ) :
    (predict cfg st P_it_kw dt_s).thermal_ok_next = true ↔
      (predict cfg st P_it_kw dt_s).rack_temp_c_next < cfg.T_max := by
  simp [predict]

/-- A candidate simulation returns `ok = true` only if every retained step
passed the margin, over-temperature and wear gates. -/
theorem simLoop_ok_steps_good (expf : ℚ → ℚ) (cfg : ThermalTwinConfig)
    (batt : BatteryDegradationConfig) (P_site_kw ramp_rate_kw_per_s desired_kw : ℚ)
    (dt_s : ℕ) :
    ∀ (fuel i : ℕ) (tw : ThermalTwinState) (cd cl : ℚ),
      (simLoop expf cfg batt P_site_kw ramp_rate_kw_per_s desired_kw dt_s
        fuel i tw cd cl).ok = true →
      ∀ s ∈ (simLoop expf cfg batt P_site_kw ramp_rate_kw_per_s desired_kw dt_s
        fuel i tw cd cl).steps, stepGood cfg s := by
  intro fuel
  induction fuel with
  | zero =>
    intro i tw cd cl _ s hs
    simp only [simLoop, List.not_mem_nil] at hs
  | succ fuel ih =>
    intro i tw cd cl
    simp only [simLoop]
    split
    · intro hok
      simp at hok
    · split
      · intro hok
        simp at hok
      · split
        · intro hok
          simp at hok
        · intro hok s hs
          rename_i h1 h2 h3
          rcases List.mem_cons.1 hs with rfl | hmem
          · exact ⟨rfl, (predict_thermal_ok_iff _ _ _ _).1 (bool_ne_false _ h2),
              not_lt.1 h1⟩
          · exact ih _ _ _ _ hok s hmem

/-- The binary search only retains step rows that came from a successful
candidate simulation (or the initial empty list). -/
theorem searchLoop_steps_good (sim : ℚ → SimResult) (P : RampPlanStep → Prop)
    (hsim : ∀ d, (sim d).ok = true → ∀ s ∈ (sim d).steps, P s) :
    ∀ (n : ℕ) (low high best : ℚ) (bs : List RampPlanStep) (bc : ℚ),
      (∀ s ∈ bs, P s) →
      ∀ s ∈ (searchLoop sim n low high best bs bc).best_steps, P s := by
  intro n
  induction n with
  | zero =>
    intro low high best bs bc hbs
    exact hbs
  | succ n ih =>
    intro low high best bs bc hbs
    simp only [searchLoop]
    by_cases hok : (sim ((low + high) / 2)).ok = true
    · rw [if_pos hok]
      exact ih _ _ _ _ _ (hsim _ hok)
    · rw [if_neg hok]
      exact ih _ _ _ _ _ hbs

set_option linter.unusedVariables false in
/-- C3: if `build_ramp_plan` approves a strictly positive ΔP, every step
of the returned plan has `thermal_ok = true`, rack temperature strictly
below `T_max`, and thermal margin at least 0.5 °C; candidate simulations
violating a gate fail and their steps are never retained. -/
theorem c3_approved_plan_thermally_safe (expf : ℚ → ℚ)
    (P_site_kw grid_headroom_kw : ℚ) (cfg : ThermalTwinConfig)
    (st : ThermalTwinState) (deltaP_request_kw : ℚ) (horizon_s dt_s : ℕ)
    (ramp_rate_kw_per_s : ℚ)
    (hpos : 0 < (build_ramp_plan expf P_site_kw grid_headroom_kw cfg st
      deltaP_request_kw horizon_s dt_s ramp_rate_kw_per_s).approved) :
    ∀ s ∈ (build_ramp_plan expf P_site_kw grid_headroom_kw cfg st
      deltaP_request_kw horizon_s dt_s ramp_rate_kw_per_s).plan.steps,
      stepGood cfg s := by
  clear hpos
  rw [build_ramp_plan]
  by_cases hcap : min (max 0 deltaP_request_kw) (max 0 grid_headroom_kw) ≤ (0 : ℚ)
  · simp only [if_pos hcap]
    intro s hs
    simp at hs
  · simp only [if_neg hcap]
    refine searchLoop_steps_good _ (stepGood cfg) ?_ 20 _ _ _ _ _ ?_
    · intro d hok
      exact simLoop_ok_steps_good expf cfg {} P_site_kw ramp_rate_kw_per_s d dt_s
        (stepsN horizon_s dt_s) 0 ⟨st.T_c, st.P_cool_kw⟩ 0 0 hok
    · intro s hs
      simp at hs

theorem predictB (P : ℚ) (h1 : -50 ≤ P) (h2 : P ≤ 50) :
    (predict cfgB ⟨20, 0⟩ P 1).rack_temp_c_next = 20 + P / 150 ∧
    (predict cfgB ⟨20, 0⟩ P 1).cooling_kw_next = 0 ∧
    (predict cfgB ⟨20, 0⟩ P 1).thermal_ok_next = true := by
  simp only [predict, cfgB, dynamic_C_mass_kj_per_c, decide_eq_true_eq]
  norm_num
  constructor <;> linarith

theorem arrhenius_zero_oracle (batt : BatteryDegradationConfig)
    (T_c throughput dt : ℚ) :
    arrhenius_aging_step (fun _ => 0) batt T_c throughput dt = 0 := by
  simp [arrhenius_aging_step]

/-- In the benign scenario every candidate simulation (horizon 1 s,
`dt = 1 s`) succeeds, whatever ΔP it probes. -/
theorem simB_ok (d : ℚ) :
    (simulate_candidate (fun _ => 0) cfgB {} 0 50 1 1 ⟨20, 0⟩ d).ok = true := by
  rw [simulate_candidate, show stepsN 1 1 = 0 + 1 from rfl]
  simp only [simLoop, zero_add, sub_zero, Nat.cast_one, mul_one]
  set nd : ℚ := max (-50) (min 50 d) with hnd
  have hnd1 : -50 ≤ nd := le_max_left _ _
  have hnd2 : nd ≤ 50 := max_le (by norm_num) (min_le_left _ _)
  obtain ⟨hT, hC, hOK⟩ := predictB nd hnd1 hnd2
  split_ifs <;>
    first
      | rfl
      | (rename_i h
         rw [hOK] at h
         exact Bool.noConfusion h)
      | (rename_i h
         rw [arrhenius_zero_oracle] at h
         norm_num at h)
      | (rename_i h
         rw [hT] at h
         norm_num [cfgB] at h
         linarith)

/-- Closed form of the binary search when every probe succeeds: after `n ≥ 1`
iterations the retained best is `high - (high - low)/2^n`. -/
theorem searchLoop_all_ok_best (sim : ℚ → SimResult)
    (hok : ∀ d, (sim d).ok = true) :
    ∀ (n : ℕ) (low high best : ℚ) (bs : List RampPlanStep) (bc : ℚ), 1 ≤ n →
      (searchLoop sim n low high best bs bc).best = high - (high - low) / 2 ^ n := by
  intro n
  induction n with
  | zero =>
    intro _ _ _ _ _ h
    exact absurd h (by norm_num)
  | succ n ih =>
    intro low high best bs bc _
    simp only [searchLoop]
    rw [if_pos (hok _)]
    rcases Nat.eq_zero_or_pos n with rfl | hn
    · show (low + high) / 2 = high - (high - low) / 2 ^ 1
      ring
    · show (searchLoop sim n ((low + high) / 2) high ((low + high) / 2) _ _).best = _
      rw [ih _ _ _ _ _ hn]
      rw [pow_succ]
      ring

/-- C3 witness: in the benign scenario (request 100 kW, headroom 100 kW)
the planner approves `100·(1 − 2⁻²⁰) > 0` and the conclusion of the claim
holds for the retained plan. -/
theorem c3_witness :
    0 < (build_ramp_plan (fun _ => 0) 0 100 cfgB ⟨20, 0⟩ 100 1 1 50).approved ∧
    ∀ s ∈ (build_ramp_plan (fun _ => 0) 0 100 cfgB ⟨20, 0⟩ 100 1 1 50).plan.steps,
      stepGood cfgB s := by
  have hcap : ¬ (min (max 0 (100 : ℚ)) (max 0 (100 : ℚ)) ≤ 0) := by norm_num
  have hbest : (build_ramp_plan (fun _ => 0) 0 100 cfgB ⟨20, 0⟩ 100 1 1 50).approved
      = 100 - 100 / 2 ^ 20 := by
    rw [build_ramp_plan]
    simp only [if_neg hcap]
    have := searchLoop_all_ok_best
      (simulate_candidate (fun _ => 0) cfgB {} 0 50 1 1 ⟨20, 0⟩) simB_ok
      20 0 (min (max 0 (100 : ℚ)) (max 0 (100 : ℚ))) 0 [] 0 (by norm_num)
    rw [this]
    norm_num
  have hpos : 0 < (build_ramp_plan (fun _ => 0) 0 100 cfgB ⟨20, 0⟩ 100 1 1 50).approved := by
    rw [hbest]
    norm_num
  exact ⟨hpos, c3_approved_plan_thermally_safe (fun _ => 0) 0 100 cfgB ⟨20, 0⟩
    100 1 1 50 hpos⟩

/-! ## Claim C5 — `decide` mutates the live state only via step 0 -/

/-- C5: `DigitalTwinService.decide` changes the live thermal state only by
committing step 0 of an approved plan: whenever the returned plan is
blocked or has no steps, the live state after the call equals the state
before it.  (The planner itself is modelled as a pure function of the
state — `build_ramp_plan` receives the state by value and the candidate
simulations and the classification probe each start from a fresh copy
`⟨st.T_c, st.P_cool_kw⟩`, mirroring the source's local copies.) -/
theorem c5_decide_frame (expf : ℚ → ℚ) (gnn_limit_kw : Option ℚ)
    (cfg : ThermalTwinConfig) (st : ThermalTwinState)
    (deltaP_request_kw P_site_kw grid_headroom_kw : ℚ)
    (horizon_s dt_s : ℕ) (ramp_rate_kw_per_s : ℚ)
    (h : (DigitalTwinService_decide expf gnn_limit_kw cfg st deltaP_request_kw
            P_site_kw grid_headroom_kw horizon_s dt_s ramp_rate_kw_per_s).1.plan.blocked
            = true ∨
         (DigitalTwinService_decide expf gnn_limit_kw cfg st deltaP_request_kw
            P_site_kw grid_headroom_kw horizon_s dt_s ramp_rate_kw_per_s).1.plan.steps
            = []) :
    (DigitalTwinService_decide expf gnn_limit_kw cfg st deltaP_request_kw
      P_site_kw grid_headroom_kw horizon_s dt_s ramp_rate_kw_per_s).2 = st := by
  have hgen : ∀ (b : Bool) (steps : List RampPlanStep), (b = true ∨ steps = []) →
      (match b, steps with
       | false, first_step :: _ =>
         (⟨first_step.rack_temp_c, first_step.cooling_kw⟩ : ThermalTwinState)
       | _, _ => st) = st := by
    intro b steps hb
    rcases hb with rfl | rfl
    · cases steps <;> rfl
    · cases b <;> rfl
  exact hgen _ _ h

/-- C5 witness: a concrete blocked decision (zero headroom) leaves the
live state `⟨27, 250⟩` untouched. -/
theorem c5_witness :
    ((DigitalTwinService_decide (fun _ => 0) none {} ⟨27, 250⟩ 100 1000 0 30 1 50).1.plan.blocked
        = true ∨
      (DigitalTwinService_decide (fun _ => 0) none {} ⟨27, 250⟩ 100 1000 0 30 1 50).1.plan.steps
        = []) ∧
    (DigitalTwinService_decide (fun _ => 0) none {} ⟨27, 250⟩ 100 1000 0 30 1 50).2
      = (⟨27, 250⟩ : ThermalTwinState) := by
  have h1 : (DigitalTwinService_decide (fun _ => 0) none {} ⟨27, 250⟩ 100 1000 0 30 1 50).1.plan
      = (build_ramp_plan (fun _ => 0) 1000 0 {} ⟨27, 250⟩ 100 30 1 50).plan := rfl
  have hb : (DigitalTwinService_decide (fun _ => 0) none {} ⟨27, 250⟩ 100 1000 0 30 1 50).1.plan.blocked
      = true := by
    rw [h1, build_early _ _ _ _ _ _ _ _ _ (by norm_num)]
  exact ⟨Or.inl hb,
    c5_decide_frame (fun _ => 0) none {} ⟨27, 250⟩ 100 1000 0 30 1 50 (Or.inl hb)⟩

/-! ## Claim C8 — number of steps per candidate simulation -/

/-- A successful candidate-simulation loop retains exactly one step row
per iteration of its fuel. -/
theorem simLoop_ok_length (expf : ℚ → ℚ) (cfg : ThermalTwinConfig)
    (batt : BatteryDegradationConfig) (P_site_kw ramp_rate_kw_per_s desired_kw : ℚ)
    (dt_s : ℕ) :
    ∀ (fuel i : ℕ) (tw : ThermalTwinState) (cd cl : ℚ),
      (simLoop expf cfg batt P_site_kw ramp_rate_kw_per_s desired_kw dt_s
        fuel i tw cd cl).ok = true →
      (simLoop expf cfg batt P_site_kw ramp_rate_kw_per_s desired_kw dt_s
        fuel i tw cd cl).steps.length = fuel := by
  intro fuel
  induction fuel with
  | zero =>
    intro i tw cd cl _
    rfl
  | succ fuel ih =>
    intro i tw cd cl
    simp only [simLoop]
    split
    · intro hok
      simp at hok
    · split
      · intro hok
        simp at hok
      · split
        · intro hok
          simp at hok
        · intro hok
          show (_ :: _).length = _
          rw [List.length_cons, ih _ _ _ _ hok]

/-- C8 (amended): every *successful* candidate simulation inside
`build_ramp_plan` retains exactly `N = max(1, ⌊horizon_s / dt_s⌋)` steps —
the source uses floor division (`horizon_s // dt_s`), not the ceiling the
claim states. -/
theorem c8_sim_step_count (expf : ℚ → ℚ) (cfg : ThermalTwinConfig)
    (batt : BatteryDegradationConfig) (P_site_kw ramp_rate_kw_per_s : ℚ)
    (horizon_s dt_s : ℕ) (st : ThermalTwinState) (desired_kw : ℚ)
    (hok : (simulate_candidate expf cfg batt P_site_kw ramp_rate_kw_per_s
      horizon_s dt_s st desired_kw).ok = true) :
    (simulate_candidate expf cfg batt P_site_kw ramp_rate_kw_per_s
      horizon_s dt_s st desired_kw).steps.length = max 1 (horizon_s / dt_s) := by
  rw [simulate_candidate] at hok ⊢
  exact simLoop_ok_length expf cfg batt P_site_kw ramp_rate_kw_per_s desired_kw
    dt_s (stepsN horizon_s dt_s) 0 ⟨st.T_c, st.P_cool_kw⟩ 0 0 hok

theorem predictB3_T : (predict cfgB ⟨20, 0⟩ 0 3).rack_temp_c_next = 20 := by
  norm_num [predict, cfgB, dynamic_C_mass_kj_per_c]

theorem predictB3_C : (predict cfgB ⟨20, 0⟩ 0 3).cooling_kw_next = 0 := by
  norm_num [predict, cfgB, dynamic_C_mass_kj_per_c]

theorem predictB3_OK : (predict cfgB ⟨20, 0⟩ 0 3).thermal_ok_next = true := by
  norm_num [predict, cfgB, dynamic_C_mass_kj_per_c]

set_option linter.unusedTactic false in
set_option linter.unreachableTactic false in
/-- In the benign scenario, the ΔP = 0 candidate is a fixed point of the
loop: every iteration succeeds at `dt = 3`. -/
theorem simB3_all :
    ∀ (fuel i : ℕ),
      (simLoop (fun _ => 0) cfgB {} 0 50 0 3 fuel i ⟨20, 0⟩ 0 0).ok = true := by
  intro fuel
  induction fuel with
  | zero =>
    intro i
    rfl
  | succ fuel ih =>
    intro i
    simp only [simLoop, zero_add, sub_zero, Nat.cast_ofNat]
    have hnd : max (-(50 * (3 : ℚ))) (min (50 * 3) 0) = 0 := by norm_num
    rw [hnd]
    simp only [predictB3_T, predictB3_C, predictB3_OK, arrhenius_zero_oracle,
      add_zero, zero_add]
    split_ifs <;>
      first
        | exact ih (i + 1)
        | (rename_i h
           exact Bool.noConfusion h)
        | (rename_i h
           norm_num at h
           done)
        | (rename_i h
           norm_num [cfgB] at h)

/-- C8 counterexample: at `horizon_s = 10`, `dt_s = 3` (both inside the
claim's ranges) a successful candidate simulation retains
`max(1, 10 // 3) = 3` steps, not `⌈10/3⌉ = 4` as the claim states. -/
theorem c8_counterexample :
    (simulate_candidate (fun _ => 0) cfgB {} 0 50 10 3 ⟨20, 0⟩ 0).ok = true ∧
    (simulate_candidate (fun _ => 0) cfgB {} 0 50 10 3 ⟨20, 0⟩ 0).steps.length ≠
      (10 + 3 - 1) / 3 := by
  have hok : (simulate_candidate (fun _ => 0) cfgB {} 0 50 10 3 ⟨20, 0⟩ 0).ok = true := by
    rw [simulate_candidate]
    exact simB3_all (stepsN 10 3) 0
  refine ⟨hok, ?_⟩
  have := simLoop_ok_length (fun _ => 0) cfgB {} 0 50 0 3 (stepsN 10 3) 0 ⟨20, 0⟩ 0 0
    (by rw [simulate_candidate] at hok; exact hok)
  rw [simulate_candidate, this]
  decide

/-- C8 witness: the amended theorem applied to the same successful
simulation: it retains exactly `max(1, 10 // 3) = 3` steps. -/
theorem c8_witness :
    (simulate_candidate (fun _ => 0) cfgB {} 0 50 10 3 ⟨20, 0⟩ 0).ok = true ∧
    (simulate_candidate (fun _ => 0) cfgB {} 0 50 10 3 ⟨20, 0⟩ 0).steps.length =
      max 1 (10 / 3) := by
  have hok : (simulate_candidate (fun _ => 0) cfgB {} 0 50 10 3 ⟨20, 0⟩ 0).ok = true := by
    rw [simulate_candidate]
    exact simB3_all (stepsN 10 3) 0
  exact ⟨hok, c8_sim_step_count (fun _ => 0) cfgB {} 0 50 10 3 ⟨20, 0⟩ 0 hok⟩

/-! ## Claim C7 — the `APPROVED_DELTA_SELECTED` emission -/

/-- Candidate simulations never emit `APPROVED_DELTA_SELECTED`. -/
theorem simLoop_no_ads (expf : ℚ → ℚ) (cfg : ThermalTwinConfig)
    (batt : BatteryDegradationConfig) (P_site_kw ramp_rate_kw_per_s desired_kw : ℚ)
    (dt_s : ℕ) :
    ∀ (fuel i : ℕ) (tw : ThermalTwinState) (cd cl : ℚ),
      ∀ e ∈ (simLoop expf cfg batt P_site_kw ramp_rate_kw_per_s desired_kw dt_s
        fuel i tw cd cl).events, e.rule_id ≠ "APPROVED_DELTA_SELECTED" := by
  intro fuel
  induction fuel with
  | zero =>
    intro i tw cd cl e he
    simp [simLoop] at he
  | succ fuel ih =>
    intro i tw cd cl e he
    simp only [simLoop] at he
    split at he
    · split at he
      · simp only [List.singleton_append, List.mem_cons, List.not_mem_nil,
          or_false] at he
        rcases he with rfl | rfl | rfl <;> simp
      · simp only [List.nil_append, List.mem_cons, List.not_mem_nil, or_false] at he
        rcases he with rfl | rfl <;> simp
    · split at he
      · split at he
        · simp only [List.singleton_append, List.mem_cons, List.not_mem_nil,
            or_false] at he
          rcases he with rfl | rfl | rfl <;> simp
        · simp only [List.nil_append, List.mem_cons, List.not_mem_nil, or_false] at he
          rcases he with rfl | rfl <;> simp
      · split at he
        · split at he
          · simp only [List.singleton_append, List.mem_cons, List.not_mem_nil,
              or_false] at he
            rcases he with rfl | rfl | rfl <;> simp
          · simp only [List.nil_append, List.mem_cons, List.not_mem_nil,
              or_false] at he
            rcases he with rfl | rfl <;> simp
        · split at he
          · simp only [List.singleton_append, List.cons_append, List.nil_append,
              List.mem_cons, List.mem_append, List.not_mem_nil, or_false] at he
            rcases he with rfl | rfl | rfl | h
            · simp
            · simp
            · simp
            · exact ih _ _ _ _ e h
          · simp only [List.nil_append, List.cons_append, List.mem_cons,
              List.mem_append, List.not_mem_nil, or_false] at he
            rcases he with rfl | rfl | h
            · simp
            · simp
            · exact ih _ _ _ _ e h

/-- The binary search only forwards candidate-simulation events. -/
theorem searchLoop_no_ads (sim : ℚ → SimResult)
    (hsim : ∀ d, ∀ e ∈ (sim d).events, e.rule_id ≠ "APPROVED_DELTA_SELECTED") :
    ∀ (n : ℕ) (low high best : ℚ) (bs : List RampPlanStep) (bc : ℚ),
      ∀ e ∈ (searchLoop sim n low high best bs bc).events,
        e.rule_id ≠ "APPROVED_DELTA_SELECTED" := by
  intro n
  induction n with
  | zero =>
    intro low high best bs bc e he
    simp [searchLoop] at he
  | succ n ih =>
    intro low high best bs bc e he
    simp only [searchLoop] at he
    split at he <;>
      (rw [List.mem_append] at he
       rcases he with h | h
       · exact hsim _ e h
       · exact ih _ _ _ _ _ e h)

theorem filter_map_ads (l1 l2 l3 : List DecisionTraceEvent)
    (ads : DecisionTraceEvent)
    (h1 : ∀ e ∈ l1, e.rule_id ≠ "APPROVED_DELTA_SELECTED")
    (h2 : ∀ e ∈ l2, e.rule_id ≠ "APPROVED_DELTA_SELECTED")
    (h3 : ∀ e ∈ l3, e.rule_id ≠ "APPROVED_DELTA_SELECTED")
    (hads : ads.rule_id = "APPROVED_DELTA_SELECTED") :
    ((l1 ++ l2 ++ l3 ++ [ads]).filter
        (fun e => e.rule_id == "APPROVED_DELTA_SELECTED")).map (fun e => e.status)
      = [ads.status] := by
  rw [List.filter_append, List.filter_append, List.filter_append,
    List.filter_eq_nil_iff.2 (by simpa using h1),
    List.filter_eq_nil_iff.2 (by simpa using h2),
    List.filter_eq_nil_iff.2 (by simpa using h3)]
  simp [List.filter, hads]

/-- C7 (amended): a `build_ramp_plan` call that reaches the finalize stage
emits exactly one `APPROVED_DELTA_SELECTED` trace event, with status
`ALLOWED` iff the plan is not blocked; but the zero-cap early return
(`cap ≤ 0`) emits *none* — contrary to the claim, which asserts exactly
one in that case too. -/
theorem c7_ads_emission (expf : ℚ → ℚ) (P_site_kw grid_headroom_kw : ℚ)
    (cfg : ThermalTwinConfig) (st : ThermalTwinState) (deltaP_request_kw : ℚ)
    (horizon_s dt_s : ℕ) (ramp_rate_kw_per_s : ℚ) :
    ((build_ramp_plan expf P_site_kw grid_headroom_kw cfg st deltaP_request_kw
        horizon_s dt_s ramp_rate_kw_per_s).trace.filter
          (fun e => e.rule_id == "APPROVED_DELTA_SELECTED")).map (fun e => e.status)
      = if min (max 0 deltaP_request_kw) (max 0 grid_headroom_kw) ≤ 0 then []
        else [if (build_ramp_plan expf P_site_kw grid_headroom_kw cfg st
                deltaP_request_kw horizon_s dt_s ramp_rate_kw_per_s).plan.blocked
              then RuleStatus.BLOCKED else RuleStatus.ALLOWED] := by
  by_cases hcap : min (max 0 deltaP_request_kw) (max 0 grid_headroom_kw) ≤ (0 : ℚ)
  · rw [if_pos hcap, build_early _ _ _ _ _ _ _ _ _ hcap]
    rw [List.map_eq_nil_iff, List.filter_eq_nil_iff]
    intro e he
    simp only [List.mem_append, List.mem_cons, List.not_mem_nil, or_false] at he
    rcases he with (rfl | h) | rfl
    · simp
    · revert h
      split <;> intro h <;> simp_all
    · simp
  · rw [if_neg hcap, build_ramp_plan]
    simp only [if_neg hcap]
    rw [filter_map_ads _ _ _ _ ?_ ?_ ?_ ?_]
    · intro e he
      simp only [List.mem_append, List.mem_cons, List.not_mem_nil, or_false] at he
      rcases he with rfl | he
      · simp
      · revert he
        split <;> intro he <;> simp_all
    · refine searchLoop_no_ads _ ?_ 20 _ _ _ _ _
      intro d f hf
      exact simLoop_no_ads expf cfg {} P_site_kw ramp_rate_kw_per_s d dt_s
        _ _ _ _ _ f hf
    · intro e he
      split at he
      · split at he
        · simp at he
        · split at he
          · split at he
            · exact simLoop_no_ads expf cfg {} P_site_kw ramp_rate_kw_per_s _
                dt_s _ _ _ _ _ e he
            · exact simLoop_no_ads expf cfg {} P_site_kw ramp_rate_kw_per_s _
                dt_s _ _ _ _ _ e he
          · exact simLoop_no_ads expf cfg {} P_site_kw ramp_rate_kw_per_s _
              dt_s _ _ _ _ _ e he
      · simp at he
    · rfl

/-- C7 counterexample: at zero headroom (`cap ≤ 0`) the planner returns a
blocked plan but emits *no* `APPROVED_DELTA_SELECTED` event at all, where
the claim demands exactly one BLOCKED-status emission. -/
theorem c7_counterexample :
    (build_ramp_plan (fun _ => 0) 1000 0 {} ⟨27, 250⟩ 500 30 1 50).plan.blocked
        = true ∧
    ((build_ramp_plan (fun _ => 0) 1000 0 {} ⟨27, 250⟩ 500 30 1 50).trace.filter
        (fun e => e.rule_id == "APPROVED_DELTA_SELECTED")) = [] := by
  have hcap : min (max 0 (500 : ℚ)) (max 0 (0 : ℚ)) ≤ 0 := by norm_num
  rw [build_early _ _ _ _ _ _ _ _ _ hcap]
  refine ⟨rfl, ?_⟩
  rw [List.filter_eq_nil_iff]
  intro e he
  simp only [List.mem_append, List.mem_cons, List.not_mem_nil, or_false] at he
  rcases he with (rfl | h) | rfl
  · simp
  · revert h
    split <;> intro h <;> simp_all
  · simp

/-! ## Claim C6 — classification of blocked plans -/

/-- When every probe in `[0, ∞)` fails, the binary search never moves
`best` off its initial value. -/
theorem searchLoop_all_fail (sim : ℚ → SimResult)
    (hfail : ∀ d, 0 ≤ d → (sim d).ok = false) :
    ∀ (n : ℕ) (low high best : ℚ) (bs : List RampPlanStep) (bc : ℚ),
      0 ≤ low → 0 ≤ high →
      (searchLoop sim n low high best bs bc).best = best := by
  intro n
  induction n with
  | zero =>
    intro low high best bs bc _ _
    rfl
  | succ n ih =>
    intro low high best bs bc h0l h0h
    have h0m : 0 ≤ (low + high) / 2 := by linarith
    simp only [searchLoop]
    have hnot : ¬ ((sim ((low + high) / 2)).ok = true) := by
      rw [hfail _ h0m]
      simp
    rw [if_neg hnot]
    exact ih _ _ _ _ _ h0l h0m

/-- C6 (amended): when `build_ramp_plan` returns a blocked plan
(`best ≤ 1e-6`) with `cap > 1e-6` *and the extra probe `simulate(cap)`
fails*, the plan is classified `BATTERY_WEAR_BLOCKED` / `POLICY` if the
probe's accumulated aging exceeds the per-decision budget, and otherwise
`THERMAL_BLOCKED` / `THERMAL` with `constraint_value` the projected next
temperature at load `P_site + cap` and `constraint_threshold = T_max`.
(The claim omits the probe-failure condition: when the probe at `cap`
succeeds — possible only for `cap` within a hair above `1e-6` — the
blocked plan keeps reason `"OK"`; see the counterexample.)  A blocked
plan is an ordinary return value of the total function `build_ramp_plan`,
never an exception. -/
theorem c6_blocked_classification (expf : ℚ → ℚ)
    (P_site_kw grid_headroom_kw : ℚ) (cfg : ThermalTwinConfig)
    (st : ThermalTwinState) (deltaP_request_kw : ℚ) (horizon_s dt_s : ℕ)
    (ramp_rate_kw_per_s : ℚ)
    (hblocked : (build_ramp_plan expf P_site_kw grid_headroom_kw cfg st
      deltaP_request_kw horizon_s dt_s ramp_rate_kw_per_s).plan.blocked = true)
    (hcap : 1/10^6 < min (max 0 deltaP_request_kw) (max 0 grid_headroom_kw))
    (hprobe : (simulate_candidate expf cfg {} P_site_kw ramp_rate_kw_per_s
      horizon_s dt_s st
      (min (max 0 deltaP_request_kw) (max 0 grid_headroom_kw))).ok = false) :
    (({} : BatteryDegradationConfig).max_cap_loss_frac_per_decision <
        (simulate_candidate expf cfg {} P_site_kw ramp_rate_kw_per_s horizon_s
          dt_s st (min (max 0 deltaP_request_kw) (max 0 grid_headroom_kw))).cap_loss_accum →
      (build_ramp_plan expf P_site_kw grid_headroom_kw cfg st deltaP_request_kw
          horizon_s dt_s ramp_rate_kw_per_s).plan.reason = "BATTERY_WEAR_BLOCKED" ∧
      (build_ramp_plan expf P_site_kw grid_headroom_kw cfg st deltaP_request_kw
          horizon_s dt_s ramp_rate_kw_per_s).plan.primary_constraint
        = some ComponentType.POLICY) ∧
    ((simulate_candidate expf cfg {} P_site_kw ramp_rate_kw_per_s horizon_s
        dt_s st (min (max 0 deltaP_request_kw) (max 0 grid_headroom_kw))).cap_loss_accum ≤
        ({} : BatteryDegradationConfig).max_cap_loss_frac_per_decision →
      (build_ramp_plan expf P_site_kw grid_headroom_kw cfg st deltaP_request_kw
          horizon_s dt_s ramp_rate_kw_per_s).plan.reason = "THERMAL_BLOCKED" ∧
      (build_ramp_plan expf P_site_kw grid_headroom_kw cfg st deltaP_request_kw
          horizon_s dt_s ramp_rate_kw_per_s).plan.primary_constraint
        = some ComponentType.THERMAL ∧
      (build_ramp_plan expf P_site_kw grid_headroom_kw cfg st deltaP_request_kw
          horizon_s dt_s ramp_rate_kw_per_s).plan.constraint_value
        = some (predict cfg ⟨st.T_c, st.P_cool_kw⟩
            (P_site_kw + min (max 0 deltaP_request_kw) (max 0 grid_headroom_kw))
            (dt_s : ℚ)).rack_temp_c_next ∧
      (build_ramp_plan expf P_site_kw grid_headroom_kw cfg st deltaP_request_kw
          horizon_s dt_s ramp_rate_kw_per_s).plan.constraint_threshold
        = some cfg.T_max) := by
  have hc0 : ¬ (min (max 0 deltaP_request_kw) (max 0 grid_headroom_kw) ≤ (0 : ℚ)) := by
    push_neg
    linarith
  rw [build_ramp_plan] at hblocked ⊢
  simp only [if_neg hc0] at hblocked ⊢
  rw [if_pos hblocked, if_neg (not_le.2 hcap), if_pos hprobe]
  constructor
  · intro hw
    rw [if_pos hw]
    exact ⟨rfl, rfl⟩
  · intro hw
    rw [if_neg (not_lt.2 hw)]
    exact ⟨rfl, rfl, rfl, rfl⟩

set_option linter.unusedTactic false in
set_option linter.unreachableTactic false in
/-- The probe's accumulated aging is 0 in the benign scenario (the only
step succeeds with a zero aging increment). -/
theorem simB_caploss (d : ℚ) :
    (simulate_candidate (fun _ => 0) cfgB {} 0 50 1 1 ⟨20, 0⟩ d).cap_loss_accum
      = 0 := by
  rw [simulate_candidate, show stepsN 1 1 = 0 + 1 from rfl]
  simp only [simLoop, zero_add, sub_zero, Nat.cast_one, mul_one]
  set nd : ℚ := max (-50) (min 50 d) with hnd
  have hnd1 : -50 ≤ nd := le_max_left _ _
  have hnd2 : nd ≤ 50 := max_le (by norm_num) (min_le_left _ _)
  obtain ⟨hT, hC, hOK⟩ := predictB nd hnd1 hnd2
  simp only [arrhenius_zero_oracle, add_zero]
  split_ifs <;>
    first
      | rfl
      | (rename_i h
         rw [hOK] at h
         exact Bool.noConfusion h)
      | (rename_i h
         norm_num at h
         done)
      | (rename_i h
         rw [hT] at h
         norm_num [cfgB] at h
         linarith)

/-- C6 counterexample: with a request a hair above `1e-6`
(`2^20/((2^20−1)·10^6)` kW), ample headroom and benign thermal state,
every probe succeeds and the search converges to exactly `1e-6`, so the
plan is *blocked* with `cap > 1e-6` and no aging-budget excess — yet its
reason is `"OK"`, not the `THERMAL_BLOCKED` the claim requires, because
the extra probe at `cap` succeeds and the source leaves the reason
untouched. -/
theorem c6_counterexample :
    (build_ramp_plan (fun _ => 0) 0 1 cfgB ⟨20, 0⟩ (1048576 / (1048575 * 10^6))
        1 1 50).plan.blocked = true ∧
    1/10^6 < min (max 0 (1048576 / (1048575 * 10^6) : ℚ)) (max 0 1) ∧
    (simulate_candidate (fun _ => 0) cfgB {} 0 50 1 1 ⟨20, 0⟩
        (min (max 0 (1048576 / (1048575 * 10^6) : ℚ)) (max 0 1))).cap_loss_accum
      ≤ ({} : BatteryDegradationConfig).max_cap_loss_frac_per_decision ∧
    (build_ramp_plan (fun _ => 0) 0 1 cfgB ⟨20, 0⟩ (1048576 / (1048575 * 10^6))
        1 1 50).plan.reason = "OK" ∧
    (build_ramp_plan (fun _ => 0) 0 1 cfgB ⟨20, 0⟩ (1048576 / (1048575 * 10^6))
        1 1 50).plan.reason ≠ "THERMAL_BLOCKED" := by
  have hcap0 : ¬ (min (max 0 (1048576 / (1048575 * 10^6) : ℚ)) (max 0 1) ≤ 0) := by
    rw [max_eq_right (by norm_num : (0:ℚ) ≤ 1048576 / (1048575 * 10^6)),
      max_eq_right (by norm_num : (0:ℚ) ≤ 1)]
    norm_num
  have hbest := searchLoop_all_ok_best
    (simulate_candidate (fun _ => 0) cfgB {} 0 50 1 1 ⟨20, 0⟩) simB_ok
    20 0 (min (max 0 (1048576 / (1048575 * 10^6) : ℚ)) (max 0 1)) 0 [] 0
    (by norm_num)
  have hcapval : min (max 0 (1048576 / (1048575 * 10^6) : ℚ)) (max 0 1)
      = 1048576 / (1048575 * 10^6) := by
    rw [max_eq_right (by norm_num : (0:ℚ) ≤ 1048576 / (1048575 * 10^6)),
      max_eq_right (by norm_num : (0:ℚ) ≤ 1)]
    rw [min_eq_left (by norm_num)]
  have hbestval : (searchLoop
      (simulate_candidate (fun _ => 0) cfgB {} 0 50 1 1 ⟨20, 0⟩)
      20 0 (min (max 0 (1048576 / (1048575 * 10^6) : ℚ)) (max 0 1)) 0 [] 0).best
      = 1/10^6 := by
    rw [hbest, hcapval]
    norm_num
  have hblocked : (build_ramp_plan (fun _ => 0) 0 1 cfgB ⟨20, 0⟩
      (1048576 / (1048575 * 10^6)) 1 1 50).plan.blocked = true := by
    rw [build_ramp_plan]
    simp only [if_neg hcap0]
    show decide _ = true
    rw [hbestval]
    norm_num
  refine ⟨hblocked, ?_, ?_, ?_, ?_⟩
  · rw [hcapval]
    norm_num
  · rw [simB_caploss]
    norm_num
  · rw [build_ramp_plan]
    simp only [if_neg hcap0]
    rw [if_pos (by rw [hbestval]; norm_num : decide ((searchLoop
        (simulate_candidate (fun _ => 0) cfgB {} 0 50 1 1 ⟨20, 0⟩)
        20 0 (min (max 0 (1048576 / (1048575 * 10^6) : ℚ)) (max 0 1)) 0 [] 0).best
          ≤ 1/10^6) = true)]
    rw [if_neg (by rw [hcapval]; norm_num)]
    rw [if_neg (by rw [simB_ok]; simp)]
  · rw [build_ramp_plan]
    simp only [if_neg hcap0]
    rw [if_pos (by rw [hbestval]; norm_num : decide ((searchLoop
        (simulate_candidate (fun _ => 0) cfgB {} 0 50 1 1 ⟨20, 0⟩)
        20 0 (min (max 0 (1048576 / (1048575 * 10^6) : ℚ)) (max 0 1)) 0 [] 0).best
          ≤ 1/10^6) = true)]
    rw [if_neg (by rw [hcapval]; norm_num)]
    rw [if_neg (by rw [simB_ok]; simp)]
    simp

set_option linter.unusedVariables false in
theorem predictW (P : ℚ) (h1 : -50 ≤ P) (h2 : P ≤ 50) :
    (predict cfgW ⟨499/10, 0⟩ P 1).rack_temp_c_next = 499/10 + P / 150 := by
  simp only [predict, cfgW, dynamic_C_mass_kj_per_c, decide_eq_true_eq]
  norm_num
  linarith

set_option linter.unusedVariables false in
/-- In the blocked scenario every candidate fails at step 0 with zero
accumulated aging (zero exp-oracle). -/
theorem simW_fail (d : ℚ) (hd : 0 ≤ d) :
    (simulate_candidate (fun _ => 0) cfgW {} 0 50 1 1 ⟨499/10, 0⟩ d).ok = false ∧
    (simulate_candidate (fun _ => 0) cfgW {} 0 50 1 1 ⟨499/10, 0⟩ d).cap_loss_accum
      = 0 := by
  rw [simulate_candidate, show stepsN 1 1 = 0 + 1 from rfl]
  simp only [simLoop, zero_add, sub_zero, Nat.cast_one, mul_one]
  set nd : ℚ := max (-50) (min 50 d) with hnd
  have hnd1 : -50 ≤ nd := le_max_left _ _
  have hnd2 : nd ≤ 50 := max_le (by norm_num) (min_le_left _ _)
  have hT := predictW nd hnd1 hnd2
  have hm : cfgW.T_max - (predict cfgW ⟨499/10, 0⟩ nd 1).rack_temp_c_next < 1/2 := by
    rw [hT]
    norm_num [cfgW]
    linarith
  rw [if_pos hm]
  simp only [arrhenius_zero_oracle, add_zero]
  refine ⟨?_, ?_⟩ <;> simp

/-- C6 witness: the amended theorem applied to the blocked scenario; the
probe fails with zero aging, so the plan is classified
`THERMAL_BLOCKED` / `THERMAL` with the projected temperature at
`P_site + cap` against `T_max`. -/
theorem c6_witness :
    (build_ramp_plan (fun _ => 0) 0 1 cfgW ⟨499/10, 0⟩ 1 1 1 50).plan.blocked
        = true ∧
    1/10^6 < min (max 0 (1 : ℚ)) (max 0 1) ∧
    (simulate_candidate (fun _ => 0) cfgW {} 0 50 1 1 ⟨499/10, 0⟩
        (min (max 0 (1 : ℚ)) (max 0 1))).ok = false ∧
    ((build_ramp_plan (fun _ => 0) 0 1 cfgW ⟨499/10, 0⟩ 1 1 1 50).plan.reason
        = "THERMAL_BLOCKED" ∧
      (build_ramp_plan (fun _ => 0) 0 1 cfgW ⟨499/10, 0⟩ 1 1 1 50).plan.primary_constraint
        = some ComponentType.THERMAL ∧
      (build_ramp_plan (fun _ => 0) 0 1 cfgW ⟨499/10, 0⟩ 1 1 1 50).plan.constraint_value
        = some (predict cfgW ⟨499/10, 0⟩ (0 + min (max 0 (1 : ℚ)) (max 0 1))
            ((1 : ℕ) : ℚ)).rack_temp_c_next ∧
      (build_ramp_plan (fun _ => 0) 0 1 cfgW ⟨499/10, 0⟩ 1 1 1 50).plan.constraint_threshold
        = some cfgW.T_max) := by
  have hcap0 : ¬ (min (max 0 (1 : ℚ)) (max 0 1) ≤ 0) := by norm_num
  have hfail : ∀ d, 0 ≤ d →
      (simulate_candidate (fun _ => 0) cfgW {} 0 50 1 1 ⟨499/10, 0⟩ d).ok = false :=
    fun d hd => (simW_fail d hd).1
  have hbest := searchLoop_all_fail
    (simulate_candidate (fun _ => 0) cfgW {} 0 50 1 1 ⟨499/10, 0⟩) hfail
    20 0 (min (max 0 (1 : ℚ)) (max 0 1)) 0 [] 0 (le_refl 0) (by norm_num)
  have hblocked : (build_ramp_plan (fun _ => 0) 0 1 cfgW ⟨499/10, 0⟩ 1 1 1 50).plan.blocked
      = true := by
    rw [build_ramp_plan]
    simp only [if_neg hcap0]
    show decide _ = true
    rw [hbest]
    norm_num
  have hcap : (1 : ℚ)/10^6 < min (max 0 (1 : ℚ)) (max 0 1) := by norm_num
  have hprobe : (simulate_candidate (fun _ => 0) cfgW {} 0 50 1 1 ⟨499/10, 0⟩
      (min (max 0 (1 : ℚ)) (max 0 1))).ok = false :=
    hfail _ (by norm_num)
  have hcl : (simulate_candidate (fun _ => 0) cfgW {} 0 50 1 1 ⟨499/10, 0⟩
      (min (max 0 (1 : ℚ)) (max 0 1))).cap_loss_accum ≤
      ({} : BatteryDegradationConfig).max_cap_loss_frac_per_decision := by
    rw [(simW_fail _ (by norm_num)).2]
    norm_num
  exact ⟨hblocked, hcap, hprobe,
    (c6_blocked_classification (fun _ => 0) 0 1 cfgW ⟨499/10, 0⟩ 1 1 1 50
      hblocked hcap hprobe).2 hcl⟩

/-! ## Claim C10 — deterministic replay of the telemetry series -/

/-- C10 (amended, part 1): in replay mode with a parseable `end_ts`, the
generated series is independent of the wall clock at call time — two
calls with identical `(window_s, end_ts, seed)`, the same collaborators
and the *same live thermal snapshot* return identical series, whenever
they are made. -/
theorem c10_replay_wall_clock_independent (sinf : ℚ → ℚ) (rngU : ℤ → ℕ → ℚ)
    (carbon : Option (ℤ → ℚ)) (gnn : Option (ℕ → ℚ)) (deterministic : Bool)
    (demo_seed : ℤ) (cfg : ThermalTwinConfig) (live : ThermalTwinState)
    (now1 now2 window_s0 e : ℤ) :
    get_timeseries sinf rngU carbon gnn deterministic demo_seed cfg live
        now1 window_s0 (some e) true
      = get_timeseries sinf rngU carbon gnn deterministic demo_seed cfg live
        now2 window_s0 (some e) true := rfl

/-- C10 counterexample: the series is *not* independent of other process
activity between the calls — it reads the live thermal state, which the
background tick mutates.  Two replay calls with identical
`(window_s, end_ts, seed)` and identical collaborators but live rack
temperatures 27 °C vs 37 °C return different series (already the first
point's `rack_temp_c` differs), refuting byte-identical replay. -/
theorem c10_counterexample :
    get_timeseries (fun _ => 0) (fun _ _ => 0) none none true 7 {} ⟨27, 250⟩
        0 60 (some 0) true
      ≠ get_timeseries (fun _ => 0) (fun _ _ => 0) none none true 7 {} ⟨37, 250⟩
        0 60 (some 0) true := by
  intro h
  have h0 := congrArg List.head? h
  simp only [get_timeseries] at h0
  rw [show (60 : ℕ) = 59 + 1 from rfl] at h0
  simp only [tsPointsFrom, List.head?_cons] at h0
  have h1 := Option.some.inj h0
  have h2 := congrArg TimeseriesPoint.rack_temp_c h1
  revert h2
  norm_num [tsPoint, tsSimState, tsLoad, predict, dynamic_C_mass_kj_per_c,
    get_coolant_props, max_def, min_def]

end GridNinja
